import Mathlib

/-!
Verification of the fund_it campaign canister (src/src/index.ts and its
near-duplicate variants src/unnamed/part_000, src/unnamed/part_001).

The canister keeps a `StableBTreeMap<string, Campaign>` and exposes six
entry points: `createCampaign`, `updateOnlyTitleandDescription`,
`donateCampaign`, `getCampaign`, `getDeadlineByCampaignId`,
`deleteCampaign`.  We embed the storage as a function
`String → Option Campaign` (the azle map serialises values, so `get`
yields a copy and only `insert` changes the stored record), the clock
`ic.time()` as an explicit `now : Int` argument, and the random
`generateId()` as an explicit `newId : String` argument (a
nondeterministic oracle).  JavaScript numbers are modelled as `Int`
(all values involved are integral).  Errors are the exact message
strings that the source returns via `Result.Err`.
-/

namespace FundIt

/-- One donation entry pushed onto `campaign.donors`
(`src/types.ts` `Donor`: donor principal and amount). -/
structure Donor where
  id : String
  amount : Int
deriving Repr, DecidableEq

/-- The stored campaign record (`src/types.ts` `Campaign`). -/
structure Campaign where
  id : String
  proposer : String
  title : String
  description : String
  goal : Int
  totalDonations : Int
  deadline : Int
  donors : List Donor
deriving Repr, DecidableEq

/-- The `campaignStorage` map, embedded as a lookup function. -/
abbrev Storage := String → Option Campaign

/-- The map after `campaignStorage.insert(k, v)`. -/
def Storage.insert (m : Storage) (k : String) (v : Campaign) : Storage :=
  fun q => if q = k then some v else m q

/-- The map part of `campaignStorage.remove(k)`. -/
def Storage.remove (m : Storage) (k : String) : Storage :=
  fun q => if q = k then none else m q

/-- The freshly constructed empty map. -/
def emptyStorage : Storage := fun _ => none

/-- JavaScript `String.prototype.trim`: strip leading and trailing
whitespace.  (Lean's own `String.trim` is equivalent but is defined by
position arithmetic that the kernel cannot evaluate, so we spell it out
over the character list.) -/
def jsTrim (s : String) : String :=
  String.mk (((s.toList.dropWhile Char.isWhitespace).reverse.dropWhile
    Char.isWhitespace).reverse)

/-- The regular expression `/^[a-f\d]{5}$/` used by `getCampaign`,
`getDeadlineByCampaignId` and `deleteCampaign` in `src/src/index.ts`:
exactly five characters, each a lowercase hex letter or digit. -/
def isValidCampaignId (id : String) : Bool :=
  id.length == 5 && id.toList.all (fun c => ('a' ≤ c && c ≤ 'f') || ('0' ≤ c && c ≤ '9'))

/-- Embedding of `createCampaign(_proposer, _title, _description, _goal, _deadline)`
(src/src/index.ts lines 31-72).  `now` stands for `ic.time()` and
`newId` for the string produced by `generateId()`.  The returned pair is
(the `Result`, the storage after the call).  A falsy (empty) proposer is
rejected, a title or description that trims to empty is rejected, a goal
`≤ 0` (which also covers the falsy `0`) is rejected; otherwise the record
is built with `totalDonations = 0`, `donors = []` and
`deadline = now + _deadline * 86400 * 10^9`, and inserted under `newId`
with no check that `newId` is fresh. -/
def createCampaign (storage : Storage) (now : Int) (newId : String)
    (proposer title description : String) (goal deadlineDays : Int) :
    Except String Campaign × Storage :=
  if proposer = "" then (Except.error "Invalid proposer", storage)
  else if jsTrim title = "" then (Except.error "Title is required", storage)
  else if jsTrim description = "" then (Except.error "Description is required", storage)
  else if goal ≤ 0 then (Except.error "Goal should be greater than 0", storage)
  else
    let campaign : Campaign :=
      { id := newId
        proposer := proposer
        title := title
        description := description
        goal := goal
        totalDonations := 0
        deadline := now + deadlineDays * 86400 * 1000000000
        donors := [] }
    (Except.ok campaign, storage.insert newId campaign)

/-- Embedding of `updateOnlyTitleandDescription(_campaignId, _title, _description)`
(src/src/index.ts lines 83-106): look the record up, overwrite `title`
and `description`, re-insert. -/
def updateOnlyTitleandDescription (storage : Storage)
    (campaignId title description : String) : Except String Campaign × Storage :=
  match storage campaignId with
  | some existingCampaign =>
    let updated : Campaign := { existingCampaign with title := title, description := description }
    (Except.ok updated, storage.insert campaignId updated)
  | none =>
    (Except.error ("The campaign with id=" ++ campaignId ++ " is not found"), storage)

/-- Embedding of `donateCampaign(_campaignId, _donorId, _amount)` (src/src/index.ts
lines 120-156).  The source pushes the new donor onto the in-memory copy
of the record *before* the goal check, but `insert` is only reached in
the accepting branch, so the map is updated exactly when
`goal >= totalDonations + amount`; on `GoalExceeded` the mutated copy is
discarded and the stored record keeps its old value.  There is no check
on the sign of `amount`. -/
def donateCampaign (storage : Storage) (now : Int) (campaignId donorId : String)
    (amount : Int) : Except String Campaign × Storage :=
  match storage campaignId with
  | some existingCampaign =>
    if now > existingCampaign.deadline then
      (Except.error "This campaign has ended", storage)
    else
      let afterAppend : Campaign :=
        { existingCampaign with
            donors := existingCampaign.donors ++ [{ id := donorId, amount := amount }] }
      if afterAppend.goal ≥ afterAppend.totalDonations + amount then
        let updated : Campaign :=
          { afterAppend with totalDonations := afterAppend.totalDonations + amount }
        (Except.ok updated, storage.insert campaignId updated)
      else
        (Except.error "Donation amount is greater than the goal", storage)
  | none =>
    (Except.error ("The campaign with id=" ++ campaignId ++ " is not found"), storage)

/-- Embedding of `getCampaign(id)` (src/src/index.ts lines 164-179): validate the id
against `/^[a-f\d]{5}$/`, then look it up.  A query, so no storage is
returned. -/
def getCampaign (storage : Storage) (id : String) : Except String Campaign :=
  if isValidCampaignId id then
    match storage id with
    | some existingCampaign => Except.ok existingCampaign
    | none => Except.error ("The campaign with id=" ++ id ++ " is not found")
  else Except.error "Invalid campaign ID"

/-- Embedding of `getDeadlineByCampaignId(id)` (src/src/index.ts lines 187-202). -/
def getDeadlineByCampaignId (storage : Storage) (id : String) : Except String Int :=
  if isValidCampaignId id then
    match storage id with
    | some existingCampaign => Except.ok existingCampaign.deadline
    | none => Except.error "Campaign not found"
  else Except.error "Invalid campaign ID"

/-- Embedding of `deleteCampaign(id)` (src/src/index.ts lines 211-224): validate the
id format, then `campaignStorage.remove(id)`. -/
def deleteCampaign (storage : Storage) (id : String) : Except String Campaign × Storage :=
  if isValidCampaignId id then
    match storage id with
    | some deletedCampaign => (Except.ok deletedCampaign, storage.remove id)
    | none => (Except.error ("The campaign with id=" ++ id ++ " is not found"), storage)
  else (Except.error "Invalid campaign ID", storage)

deriving instance DecidableEq for Except

/-- Concrete fixture: an open campaign with goal 10, nothing raised,
deadline at time 100, stored under the (generator-shaped) id "abcde". -/
def cFix : Campaign :=
  { id := "abcde"
    proposer := "alice"
    title := "Well"
    description := "Water well"
    goal := 10
    totalDonations := 0
    deadline := 100
    donors := [] }

/-- Fixture storage holding exactly `cFix`. -/
def stFix : Storage := fun k => if k = "abcde" then some cFix else none

/-- C1: for every stored campaign, a donate call that would push
`totalDonations + amount` above `goal` while the campaign is still open
(`now ≤ deadline`) returns the `GoalExceeded` error and returns the
storage unchanged — the in-memory donor push is never persisted, so the
stored record (and in particular its `donors` sequence) is byte-for-byte
what it was before the call. -/
theorem donate_goalExceeded_storage_unchanged
    (storage : Storage) (now : Int) (campaignId donorId : String) (amount : Int)
    (c : Campaign) (hget : storage campaignId = some c)
    (hopen : now ≤ c.deadline) (hover : c.goal < c.totalDonations + amount) :
    donateCampaign storage now campaignId donorId amount =
        (Except.error "Donation amount is greater than the goal", storage)
      ∧ (donateCampaign storage now campaignId donorId amount).2 campaignId = some c := by
  have h1 : donateCampaign storage now campaignId donorId amount =
      (Except.error "Donation amount is greater than the goal", storage) := by
    simp only [donateCampaign, hget]
    rw [if_neg (by omega : ¬ now > c.deadline),
      if_neg (by omega : ¬ c.goal ≥ c.totalDonations + amount)]
  exact ⟨h1, by rw [h1]; exact hget⟩

/-- Witness for C1 at a concrete input: donating 11 against goal 10. -/
theorem donate_goalExceeded_storage_unchanged_witness :
    donateCampaign stFix 50 "abcde" "bob" 11 =
        (Except.error "Donation amount is greater than the goal", stFix)
      ∧ (donateCampaign stFix 50 "abcde" "bob" 11).2 "abcde" = some cFix :=
  donate_goalExceeded_storage_unchanged stFix 50 "abcde" "bob" 11 cFix (by decide)
    (by decide) (by decide)

/-- On valid inputs the create call reduces to the success pair. -/
lemma createCampaign_success (storage : Storage) (now : Int)
    (newId proposer title description : String) (goal deadlineDays : Int)
    (hp : proposer ≠ "") (ht : jsTrim title ≠ "") (hd : jsTrim description ≠ "")
    (hg : 0 < goal) :
    createCampaign storage now newId proposer title description goal deadlineDays =
      (Except.ok (Campaign.mk newId proposer title description goal 0
          (now + deadlineDays * 86400 * 1000000000) []),
       storage.insert newId
         (Campaign.mk newId proposer title description goal 0
           (now + deadlineDays * 86400 * 1000000000) [])) := by
  unfold createCampaign
  rw [if_neg hp, if_neg ht, if_neg hd, if_neg (by omega : ¬ goal ≤ 0)]

/-- C4: on valid inputs (non-empty proposer, title and description
non-empty after trimming, positive goal) `createCampaign` returns `Ok`
with a record whose `totalDonations` is `0`, `donors` is `[]` and
`deadline` is `now + deadlineDays * 86400 * 10^9`, and stores exactly
that record in the map under its id. -/
theorem createCampaign_valid_inputs
    (storage : Storage) (now : Int) (newId proposer title description : String)
    (goal deadlineDays : Int)
    (hp : proposer ≠ "") (ht : jsTrim title ≠ "") (hd : jsTrim description ≠ "")
    (hg : 0 < goal) :
    (createCampaign storage now newId proposer title description goal deadlineDays).1 =
        Except.ok (Campaign.mk newId proposer title description goal 0
          (now + deadlineDays * 86400 * 1000000000) [])
      ∧ (createCampaign storage now newId proposer title description goal deadlineDays).2
          newId =
        some (Campaign.mk newId proposer title description goal 0
          (now + deadlineDays * 86400 * 1000000000) []) := by
  rw [createCampaign_success storage now newId proposer title description goal
    deadlineDays hp ht hd hg]
  exact ⟨rfl, by simp [Storage.insert]⟩

/-- Witness for C4 at a concrete input. -/
theorem createCampaign_valid_inputs_witness :
    (createCampaign stFix 0 "fffff" "alice" "Trip" "School trip" 10 1).1 =
        Except.ok (Campaign.mk "fffff" "alice" "Trip" "School trip" 10 0
          (0 + 1 * 86400 * 1000000000) [])
      ∧ (createCampaign stFix 0 "fffff" "alice" "Trip" "School trip" 10 1).2 "fffff" =
        some (Campaign.mk "fffff" "alice" "Trip" "School trip" 10 0
          (0 + 1 * 86400 * 1000000000) []) :=
  createCampaign_valid_inputs stFix 0 "fffff" "alice" "Trip" "School trip" 10 1
    (by decide) (by decide) (by decide) (by decide)

/-- C6: on an existing campaign, `donateCampaign` returns the
`CampaignEnded` error exactly when `now > deadline` (so a donation at
`now = deadline` is never rejected as ended), and on that failure the
storage — hence `donors` and `totalDonations` of the stored record — is
unchanged. -/
theorem donate_campaignEnded_iff
    (storage : Storage) (now : Int) (campaignId donorId : String) (amount : Int)
    (c : Campaign) (hget : storage campaignId = some c) :
    ((donateCampaign storage now campaignId donorId amount).1 =
        Except.error "This campaign has ended" ↔ c.deadline < now)
      ∧ (c.deadline < now →
        (donateCampaign storage now campaignId donorId amount).2 = storage) := by
  by_cases hnow : c.deadline < now
  · have h1 : donateCampaign storage now campaignId donorId amount =
        (Except.error "This campaign has ended", storage) := by
      simp only [donateCampaign, hget]
      rw [if_pos (hnow : now > c.deadline)]
    rw [h1]
    exact ⟨⟨fun _ => hnow, fun _ => rfl⟩, fun _ => rfl⟩
  · refine ⟨⟨fun h1 => ?_, fun h => absurd h hnow⟩, fun h => absurd h hnow⟩
    exfalso
    simp only [donateCampaign, hget] at h1
    rw [if_neg (hnow : ¬ now > c.deadline)] at h1
    by_cases h2 : c.goal ≥ c.totalDonations + amount
    · rw [if_pos h2] at h1
      exact absurd h1 (by simp)
    · rw [if_neg h2] at h1
      simp at h1


/-- Witness for C6 at a concrete input: donating at time 500 against
deadline 100. -/
theorem donate_campaignEnded_iff_witness :
    ((donateCampaign stFix 500 "abcde" "bob" 1).1 =
        Except.error "This campaign has ended" ↔ cFix.deadline < 500)
      ∧ (cFix.deadline < 500 → (donateCampaign stFix 500 "abcde" "bob" 1).2 = stFix) :=
  donate_campaignEnded_iff stFix 500 "abcde" "bob" 1 cFix (by decide)

/-- C7: on an existing campaign, `updateOnlyTitleandDescription`
replaces only `title` and `description` in the stored record: `goal`,
`deadline`, `donors`, `totalDonations`, `proposer` and `id` are all
identical before and after the call, and no other key of the map is
touched. -/
theorem update_changes_only_title_description
    (storage : Storage) (campaignId title description : String) (c : Campaign)
    (hget : storage campaignId = some c) :
    ∃ c2, updateOnlyTitleandDescription storage campaignId title description =
        (Except.ok c2, storage.insert campaignId c2)
      ∧ c2.title = title ∧ c2.description = description
      ∧ c2.goal = c.goal ∧ c2.deadline = c.deadline ∧ c2.donors = c.donors
      ∧ c2.totalDonations = c.totalDonations ∧ c2.proposer = c.proposer ∧ c2.id = c.id
      ∧ (updateOnlyTitleandDescription storage campaignId title description).2
          campaignId = some c2
      ∧ ∀ k, k ≠ campaignId →
          (updateOnlyTitleandDescription storage campaignId title description).2 k =
            storage k := by
  have h1 : updateOnlyTitleandDescription storage campaignId title description =
      (Except.ok { c with title := title, description := description },
       storage.insert campaignId { c with title := title, description := description }) := by
    simp only [updateOnlyTitleandDescription, hget]
  refine ⟨{ c with title := title, description := description },
    h1, rfl, rfl, rfl, rfl, rfl, rfl, rfl, rfl, ?_, ?_⟩
  · rw [h1]; simp [Storage.insert]
  · intro k hk; rw [h1]; simp [Storage.insert, hk]

/-- Witness for C7 at a concrete input. -/
theorem update_changes_only_title_description_witness :
    ∃ c2, updateOnlyTitleandDescription stFix "abcde" "New title" "New text" =
        (Except.ok c2, stFix.insert "abcde" c2)
      ∧ c2.title = "New title" ∧ c2.description = "New text"
      ∧ c2.goal = cFix.goal ∧ c2.deadline = cFix.deadline ∧ c2.donors = cFix.donors
      ∧ c2.totalDonations = cFix.totalDonations ∧ c2.proposer = cFix.proposer
      ∧ c2.id = cFix.id
      ∧ (updateOnlyTitleandDescription stFix "abcde" "New title" "New text").2
          "abcde" = some c2
      ∧ ∀ k, k ≠ "abcde" →
          (updateOnlyTitleandDescription stFix "abcde" "New title" "New text").2 k =
            stFix k :=
  update_changes_only_title_description stFix "abcde" "New title" "New text" cFix
    (by decide)

/-- C9: a successful `deleteCampaign id` removes the record, so a
subsequent `getCampaign id` on the resulting storage reports the
not-found error (the id passed the format check during the delete, so
`getCampaign` reaches the lookup and finds nothing). -/
theorem delete_then_get_notFound (storage : Storage) (id : String) (c : Campaign)
    (hdel : (deleteCampaign storage id).1 = Except.ok c) :
    getCampaign (deleteCampaign storage id).2 id =
        Except.error ("The campaign with id=" ++ id ++ " is not found")
      ∧ (deleteCampaign storage id).2 id = none := by
  cases hv : isValidCampaignId id with
  | false =>
    exfalso
    simp only [deleteCampaign, hv] at hdel
    simp at hdel
  | true =>
    cases hc : storage id with
    | none =>
      exfalso
      simp only [deleteCampaign, hv, hc] at hdel
      simp at hdel
    | some c0 =>
      have h2 : (deleteCampaign storage id).2 = storage.remove id := by
        simp [deleteCampaign, hv, hc]
      have hnone : (deleteCampaign storage id).2 id = none := by
        rw [h2]; simp [Storage.remove]
      refine ⟨?_, hnone⟩
      simp [getCampaign, hv, hnone]

/-- Witness for C9 at a concrete input. -/
theorem delete_then_get_notFound_witness :
    getCampaign (deleteCampaign stFix "abcde").2 "abcde" =
        Except.error ("The campaign with id=" ++ "abcde" ++ " is not found")
      ∧ (deleteCampaign stFix "abcde").2 "abcde" = none :=
  delete_then_get_notFound stFix "abcde" cFix (by decide)

/-- Counterexample for C2: `donateCampaign` has no amount validation.
A donation of `0` (and likewise any negative amount within goal
headroom) on an open campaign is *accepted*: the call returns `Ok` and
persists a donor entry, instead of failing with `InvalidAmount` before
any mutation as the claim states. -/
theorem donate_no_invalidAmount_check_cex :
    (donateCampaign stFix 50 "abcde" "bob" 0).1 =
        Except.ok { cFix with donors := [{ id := "bob", amount := 0 }] }
      ∧ (donateCampaign stFix 50 "abcde" "bob" 0).2 "abcde" =
        some { cFix with donors := [{ id := "bob", amount := 0 }] } := by
  constructor <;> decide

/-- C2 (amended): `donateCampaign` performs no validation on `amount` —
a donation with `amount ≤ 0` on an open campaign with goal headroom is
accepted like any other — but the frame part of the claim holds: every
donate call that returns an error (not-found, `CampaignEnded` or
`GoalExceeded`) leaves the storage, and hence the stored record,
completely unchanged. -/
theorem donate_failure_frame_and_no_amount_check :
    (∀ (storage : Storage) (now : Int) (campaignId donorId : String)
        (amount : Int) (e : String),
        (donateCampaign storage now campaignId donorId amount).1 = Except.error e →
        (donateCampaign storage now campaignId donorId amount).2 = storage)
      ∧ (∀ (storage : Storage) (now : Int) (campaignId donorId : String)
          (amount : Int) (c : Campaign),
          storage campaignId = some c → amount ≤ 0 → now ≤ c.deadline →
          c.totalDonations + amount ≤ c.goal →
          (donateCampaign storage now campaignId donorId amount).1 =
            Except.ok { c with
              donors := c.donors ++ [{ id := donorId, amount := amount }],
              totalDonations := c.totalDonations + amount }) := by
  constructor
  · intro storage now campaignId donorId amount e h
    cases hc : storage campaignId with
    | none => simp [donateCampaign, hc]
    | some c =>
      by_cases h1 : now > c.deadline
      · simp [donateCampaign, hc, h1]
      · by_cases h2 : c.goal ≥ c.totalDonations + amount
        · exfalso
          simp only [donateCampaign, hc] at h
          rw [if_neg h1, if_pos h2] at h
          exact absurd h (by simp)
        · simp only [donateCampaign, hc]
          rw [if_neg h1, if_neg h2]
  · intro storage now campaignId donorId amount c hget hneg hopen hroom
    simp only [donateCampaign, hget]
    rw [if_neg (by omega : ¬ now > c.deadline),
      if_pos (by omega : c.goal ≥ c.totalDonations + amount)]

/-- Witness for the amended C2: a goal-exceeding failure leaves the
fixture storage unchanged, and a donation of `-2` is accepted. -/
theorem donate_failure_frame_and_no_amount_check_witness :
    (donateCampaign stFix 50 "abcde" "bob" 11).2 = stFix
      ∧ (donateCampaign stFix 50 "abcde" "carol" (-2)).1 =
        Except.ok { cFix with
          donors := cFix.donors ++ [{ id := "carol", amount := -2 }],
          totalDonations := cFix.totalDonations + -2 } :=
  ⟨donate_failure_frame_and_no_amount_check.1 stFix 50 "abcde" "bob" 11
      "Donation amount is greater than the goal" (by decide),
   donate_failure_frame_and_no_amount_check.2 stFix 50 "abcde" "carol" (-2) cFix
      (by decide) (by decide) (by decide) (by decide)⟩

/-- Counterexample for C8: `generateId` has no uniqueness retry loop and
`createCampaign` inserts without checking that the generated id is
absent.  With the id oracle returning "abcde" — which is already
occupied by `cFix` — the call succeeds and the stored record under
"abcde" becomes the fresh campaign, silently overwriting `cFix`. -/
theorem create_collision_overwrites_cex :
    stFix "abcde" = some cFix
      ∧ (createCampaign stFix 0 "abcde" "carol" "Second" "Another" 50 1).1 =
        Except.ok (Campaign.mk "abcde" "carol" "Second" "Another" 50 0
          86400000000000 [])
      ∧ (createCampaign stFix 0 "abcde" "carol" "Second" "Another" 50 1).2 "abcde" =
        some (Campaign.mk "abcde" "carol" "Second" "Another" 50 0
          86400000000000 [])
      ∧ Campaign.mk "abcde" "carol" "Second" "Another" 50 0 86400000000000 [] ≠ cFix := by
  refine ⟨by decide, by decide, by decide, by decide⟩

/-- C8 (amended): `createCampaign` stores the fresh record under the
generated id unconditionally; when the generated id is already a key of
the map the existing campaign record is overwritten, so uniqueness of
stored campaigns is guaranteed only when the generator happens to
produce an unused id. -/
theorem create_unconditional_insert
    (storage : Storage) (now : Int) (newId proposer title description : String)
    (goal deadlineDays : Int) (old : Campaign)
    (hp : proposer ≠ "") (ht : jsTrim title ≠ "") (hd : jsTrim description ≠ "")
    (hg : 0 < goal) (hold : storage newId = some old) :
    (createCampaign storage now newId proposer title description goal deadlineDays).2
        newId =
      some (Campaign.mk newId proposer title description goal 0
        (now + deadlineDays * 86400 * 1000000000) []) := by
  unfold createCampaign
  rw [if_neg hp, if_neg ht, if_neg hd, if_neg (by omega : ¬ goal ≤ 0)]
  simp [Storage.insert]

/-- Witness for the amended C8 at a concrete occupied key. -/
theorem create_unconditional_insert_witness :
    (createCampaign stFix 0 "abcde" "carol" "Second" "Another" 50 1).2 "abcde" =
      some (Campaign.mk "abcde" "carol" "Second" "Another" 50 0
        (0 + 1 * 86400 * 1000000000) []) :=
  create_unconditional_insert stFix 0 "abcde" "carol" "Second" "Another" 50 1 cFix
    (by decide) (by decide) (by decide) (by decide) (by decide)

/-- C10: `createCampaign` does not validate `deadlineDays`.  With a
negative day count (and all other inputs valid) the call succeeds, the
stored deadline is strictly before the creation time, and — the clock
being monotone, so every later call sees `now ≥` the creation time —
every donation to the campaign fails with `CampaignEnded`. -/
theorem create_negative_deadline_always_ended
    (storage : Storage) (now : Int) (newId proposer title description : String)
    (goal deadlineDays : Int)
    (hp : proposer ≠ "") (ht : jsTrim title ≠ "") (hd : jsTrim description ≠ "")
    (hg : 0 < goal) (hneg : deadlineDays < 0) :
    ∃ c, (createCampaign storage now newId proposer title description goal
          deadlineDays).1 = Except.ok c
      ∧ c.deadline < now
      ∧ ∀ (laterTime : Int) (donorId : String) (amount : Int), now ≤ laterTime →
          (donateCampaign
            (createCampaign storage now newId proposer title description goal
              deadlineDays).2
            laterTime newId donorId amount).1 =
            Except.error "This campaign has ended" := by
  have hK : deadlineDays * 86400 * 1000000000 < 0 := by
    have h86 : deadlineDays * 86400 ≤ -86400 := by omega
    nlinarith
  have heq := createCampaign_success storage now newId proposer title description
    goal deadlineDays hp ht hd hg
  have hres : (createCampaign storage now newId proposer title description goal
        deadlineDays).1 =
      Except.ok (Campaign.mk newId proposer title description goal 0
        (now + deadlineDays * 86400 * 1000000000) []) ∧
      (createCampaign storage now newId proposer title description goal
        deadlineDays).2 newId =
      some (Campaign.mk newId proposer title description goal 0
        (now + deadlineDays * 86400 * 1000000000) []) := by
    rw [heq]
    exact ⟨rfl, by simp [Storage.insert]⟩
  refine ⟨Campaign.mk newId proposer title description goal 0
    (now + deadlineDays * 86400 * 1000000000) [], hres.1, by simp; omega, ?_⟩
  intro laterTime donorId amount hle
  simp only [donateCampaign, hres.2]
  rw [if_pos (by simp; omega :
    laterTime > (Campaign.mk newId proposer title description goal 0
      (now + deadlineDays * 86400 * 1000000000) []).deadline)]

/-- Witness for C10 at a concrete input: one day in the past. -/
theorem create_negative_deadline_always_ended_witness :
    ∃ c, (createCampaign emptyStorage 1000 "fffff" "alice" "Late" "Too late" 10
          (-1)).1 = Except.ok c
      ∧ c.deadline < 1000
      ∧ ∀ (laterTime : Int) (donorId : String) (amount : Int), 1000 ≤ laterTime →
          (donateCampaign
            (createCampaign emptyStorage 1000 "fffff" "alice" "Late" "Too late" 10
              (-1)).2
            laterTime "fffff" donorId amount).1 =
            Except.error "This campaign has ended" :=
  create_negative_deadline_always_ended emptyStorage 1000 "fffff" "alice" "Late"
    "Too late" 10 (-1) (by decide) (by decide) (by decide) (by decide) (by decide)

/-- A call to one of the canister's entry points, with its inputs
(`now` standing for the value of `ic.time()` during the call and
`newId` for the output of `generateId()`). -/
inductive Op where
  | create (now : Int) (newId proposer title description : String)
      (goal deadlineDays : Int)
  | update (campaignId title description : String)
  | donate (now : Int) (campaignId donorId : String) (amount : Int)
  | readCampaign (id : String)
  | readDeadline (id : String)
  | delete (id : String)

/-- The storage after executing one call (queries leave it unchanged). -/
def step (storage : Storage) : Op → Storage
  | Op.create now newId proposer title description goal deadlineDays =>
      (createCampaign storage now newId proposer title description goal deadlineDays).2
  | Op.update campaignId title description =>
      (updateOnlyTitleandDescription storage campaignId title description).2
  | Op.donate now campaignId donorId amount =>
      (donateCampaign storage now campaignId donorId amount).2
  | Op.readCampaign _ => storage
  | Op.readDeadline _ => storage
  | Op.delete id => (deleteCampaign storage id).2

/-- The storage after a sequence of calls. -/
def run (storage : Storage) (ops : List Op) : Storage := ops.foldl step storage

/-- Holds (as `true`) unless the call donates a negative amount. -/
def nonneg : Op → Bool
  | Op.donate _ _ _ amount => decide (0 ≤ amount)
  | _ => true

/-- Whether the call is a `createCampaign` call. -/
def isCreate : Op → Bool
  | Op.create _ _ _ _ _ _ _ => true
  | _ => false

/-- The per-record invariant claimed by the spec:
`0 ≤ totalDonations ≤ goal` for every stored campaign. -/
def Inv (storage : Storage) : Prop :=
  ∀ id c, storage id = some c → 0 ≤ c.totalDonations ∧ c.totalDonations ≤ c.goal

/-- A donate call either leaves the storage untouched or — when the
campaign exists, is open, and has goal headroom — stores the record with
the donor appended and the total increased. -/
lemma donate_storage_cases (storage : Storage) (now : Int)
    (campaignId donorId : String) (amount : Int) :
    (donateCampaign storage now campaignId donorId amount).2 = storage
      ∨ ∃ c0, storage campaignId = some c0 ∧ now ≤ c0.deadline
          ∧ c0.totalDonations + amount ≤ c0.goal
          ∧ (donateCampaign storage now campaignId donorId amount).2 =
            storage.insert campaignId
              { c0 with
                donors := c0.donors ++ [{ id := donorId, amount := amount }],
                totalDonations := c0.totalDonations + amount } := by
  cases hcc : storage campaignId with
  | none => left; simp [donateCampaign, hcc]
  | some c0 =>
    by_cases h1 : now > c0.deadline
    · left; simp [donateCampaign, hcc, h1]
    · by_cases h2 : c0.goal ≥ c0.totalDonations + amount
      · right
        refine ⟨c0, rfl, by omega, by omega, ?_⟩
        simp only [donateCampaign, hcc]
        rw [if_neg h1, if_pos h2]
      · left
        simp only [donateCampaign, hcc]
        rw [if_neg h1, if_neg h2]

/-- A create call either leaves the storage untouched (validation
failure) or stores a fresh record with zero total and positive goal
under the generated id. -/
lemma create_storage_cases (storage : Storage) (now : Int)
    (newId proposer title description : String) (goal deadlineDays : Int) :
    (createCampaign storage now newId proposer title description goal deadlineDays).2 =
        storage
      ∨ (0 < goal
          ∧ (createCampaign storage now newId proposer title description goal
              deadlineDays).2 =
            storage.insert newId
              (Campaign.mk newId proposer title description goal 0
                (now + deadlineDays * 86400 * 1000000000) [])) := by
  unfold createCampaign
  split_ifs with h1 h2 h3 h4
  · left; rfl
  · left; rfl
  · left; rfl
  · left; rfl
  · right; exact ⟨by omega, rfl⟩

/-- An update call either leaves the storage untouched or re-inserts the
looked-up record with only the title and description replaced. -/
lemma update_storage_cases (storage : Storage) (campaignId title description : String) :
    (updateOnlyTitleandDescription storage campaignId title description).2 = storage
      ∨ ∃ c0, storage campaignId = some c0
          ∧ (updateOnlyTitleandDescription storage campaignId title description).2 =
            storage.insert campaignId
              { c0 with title := title, description := description } := by
  cases hcc : storage campaignId with
  | none => left; simp [updateOnlyTitleandDescription, hcc]
  | some c0 =>
    right
    exact ⟨c0, rfl, by simp [updateOnlyTitleandDescription, hcc]⟩

/-- A delete call either leaves the storage untouched or removes the
key it was given. -/
lemma delete_storage_cases (storage : Storage) (id : String) :
    (deleteCampaign storage id).2 = storage
      ∨ (deleteCampaign storage id).2 = storage.remove id := by
  unfold deleteCampaign
  cases hv : isValidCampaignId id with
  | false => left; simp
  | true =>
    cases hcc : storage id with
    | none => left; simp [hcc]
    | some c0 => right; simp [hcc]

/-- Counterexample for C3: starting from the empty map, create a valid
campaign (goal 10, one-day deadline) and then donate `-1` before the
deadline.  The donation is accepted and the stored `totalDonations`
becomes `-1`: it decreased from `0` and violates
`0 ≤ totalDonations`. -/
theorem totalDonations_invariant_cex :
    run emptyStorage
        [Op.create 0 "abcde" "alice" "Well" "Water well" 10 1,
         Op.donate 5 "abcde" "bob" (-1)] "abcde" =
      some (Campaign.mk "abcde" "alice" "Well" "Water well" 10 (-1)
        86400000000000 [Donor.mk "bob" (-1)])
      ∧ ((-1 : Int) < 0) := by
  constructor <;> decide

/-- The invariant `0 ≤ totalDonations ≤ goal` is preserved by every
call that does not donate a negative amount. -/
lemma inv_step (storage : Storage) (op : Op) (hnn : nonneg op = true)
    (h : Inv storage) : Inv (step storage op) := by
  cases op with
  | create now newId proposer title description goal deadlineDays =>
    intro id c hc
    simp only [step] at hc
    rcases create_storage_cases storage now newId proposer title description goal
      deadlineDays with he | ⟨hg, he⟩
    · rw [he] at hc; exact h id c hc
    · rw [he] at hc
      simp only [Storage.insert] at hc
      by_cases hid : id = newId
      · rw [if_pos hid] at hc
        injection hc with hc
        subst hc
        exact ⟨le_refl 0, by simpa using le_of_lt hg⟩
      · rw [if_neg hid] at hc
        exact h id c hc
  | update campaignId title description =>
    intro id c hc
    simp only [step] at hc
    rcases update_storage_cases storage campaignId title description with
      he | ⟨c0, hcc, he⟩
    · rw [he] at hc; exact h id c hc
    · rw [he] at hc
      simp only [Storage.insert] at hc
      by_cases hid : id = campaignId
      · rw [if_pos hid] at hc
        injection hc with hc
        subst hc
        simpa using h campaignId c0 hcc
      · rw [if_neg hid] at hc
        exact h id c hc
  | donate now campaignId donorId amount =>
    intro id c hc
    have ha : 0 ≤ amount := by simpa [nonneg] using hnn
    simp only [step] at hc
    rcases donate_storage_cases storage now campaignId donorId amount with
      he | ⟨c0, hcc, hop, hroom, he⟩
    · rw [he] at hc; exact h id c hc
    · rw [he] at hc
      simp only [Storage.insert] at hc
      by_cases hid : id = campaignId
      · rw [if_pos hid] at hc
        injection hc with hc
        subst hc
        have h0 := h campaignId c0 hcc
        refine ⟨?_, ?_⟩ <;> simp <;> omega
      · rw [if_neg hid] at hc
        exact h id c hc
  | readCampaign i =>
    intro id c hc
    exact h id c hc
  | readDeadline i =>
    intro id c hc
    exact h id c hc
  | delete i =>
    intro id c hc
    simp only [step] at hc
    rcases delete_storage_cases storage i with he | he
    · rw [he] at hc; exact h id c hc
    · rw [he] at hc
      simp only [Storage.remove] at hc
      by_cases hid : id = i
      · rw [if_pos hid] at hc
        exact absurd hc (by simp)
      · rw [if_neg hid] at hc
        exact h id c hc

/-- The invariant is preserved by any sequence of calls with
non-negative donation amounts. -/
lemma inv_run (ops : List Op) (storage : Storage) (h : Inv storage)
    (hnn : ∀ op ∈ ops, nonneg op = true) : Inv (run storage ops) := by
  induction ops generalizing storage with
  | nil => exact h
  | cons op ops ih =>
    exact ih (step storage op)
      (inv_step storage op (hnn op (List.mem_cons_self op ops)) h)
      (fun o ho => hnn o (List.mem_cons_of_mem op ho))

/-- Across any single non-create call with non-negative donation
amount, the `totalDonations` stored under a key never decreases. -/
lemma total_mono_step (storage : Storage) (op : Op) (id : String) (c c2 : Campaign)
    (hnc : isCreate op = false) (hnn : nonneg op = true)
    (hb : storage id = some c) (ha : step storage op id = some c2) :
    c.totalDonations ≤ c2.totalDonations := by
  cases op with
  | create now newId proposer title description goal deadlineDays =>
    simp [isCreate] at hnc
  | update campaignId title description =>
    simp only [step] at ha
    rcases update_storage_cases storage campaignId title description with
      he | ⟨c0, hcc, he⟩
    · rw [he, hb] at ha
      injection ha with ha
      subst ha
      exact le_refl _
    · rw [he] at ha
      simp only [Storage.insert] at ha
      by_cases hid : id = campaignId
      · rw [if_pos hid] at ha
        injection ha with ha
        subst ha
        subst hid
        rw [hb] at hcc
        injection hcc with hcc
        subst hcc
        exact le_refl _
      · rw [if_neg hid, hb] at ha
        injection ha with ha
        subst ha
        exact le_refl _
  | donate now campaignId donorId amount =>
    have hamt : 0 ≤ amount := by simpa [nonneg] using hnn
    simp only [step] at ha
    rcases donate_storage_cases storage now campaignId donorId amount with
      he | ⟨c0, hcc, hop, hroom, he⟩
    · rw [he, hb] at ha
      injection ha with ha
      subst ha
      exact le_refl _
    · rw [he] at ha
      simp only [Storage.insert] at ha
      by_cases hid : id = campaignId
      · rw [if_pos hid] at ha
        injection ha with ha
        subst ha
        subst hid
        rw [hb] at hcc
        injection hcc with hcc
        subst hcc
        simp
        omega
      · rw [if_neg hid, hb] at ha
        injection ha with ha
        subst ha
        exact le_refl _
  | readCampaign i =>
    simp only [step] at ha
    rw [hb] at ha
    injection ha with ha
    subst ha
    exact le_refl _
  | readDeadline i =>
    simp only [step] at ha
    rw [hb] at ha
    injection ha with ha
    subst ha
    exact le_refl _
  | delete i =>
    simp only [step] at ha
    rcases delete_storage_cases storage i with he | he
    · rw [he, hb] at ha
      injection ha with ha
      subst ha
      exact le_refl _
    · rw [he] at ha
      simp only [Storage.remove] at ha
      by_cases hid : id = i
      · rw [if_pos hid] at ha
        exact absurd ha (by simp)
      · rw [if_neg hid, hb] at ha
        injection ha with ha
        subst ha
        exact le_refl _

/-- C3 (amended): restricted to runs in which every donation amount is
non-negative — the code itself accepts negative amounts, see the
counterexample — the claimed lifecycle properties hold: a successful
`createCampaign` returns a record with `totalDonations = 0`; across any
single non-create call the `totalDonations` stored under a key never
decreases (a colliding create replaces the record by a fresh campaign
rather than mutating the old one); and after any sequence of calls
starting from the empty map every stored record satisfies
`0 ≤ totalDonations ≤ goal`. -/
theorem totalDonations_invariant_amended :
    (∀ (storage : Storage) (now : Int) (newId proposer title description : String)
        (goal deadlineDays : Int) (c : Campaign),
        (createCampaign storage now newId proposer title description goal
          deadlineDays).1 = Except.ok c → c.totalDonations = 0)
      ∧ (∀ (storage : Storage) (op : Op) (id : String) (c c2 : Campaign),
          isCreate op = false → nonneg op = true → storage id = some c →
          step storage op id = some c2 → c.totalDonations ≤ c2.totalDonations)
      ∧ (∀ ops : List Op, (∀ op ∈ ops, nonneg op = true) →
          ∀ id c, run emptyStorage ops id = some c →
            0 ≤ c.totalDonations ∧ c.totalDonations ≤ c.goal) := by
  refine ⟨?_, fun storage op id c c2 => total_mono_step storage op id c c2,
    fun ops hnn =>
      inv_run ops emptyStorage (fun id c hc => by simp [emptyStorage] at hc) hnn⟩
  intro storage now newId proposer title description goal deadlineDays c hok
  by_cases h1 : proposer = ""
  · simp [createCampaign, h1] at hok
  · by_cases h2 : jsTrim title = ""
    · simp [createCampaign, h1, h2] at hok
    · by_cases h3 : jsTrim description = ""
      · simp [createCampaign, h1, h2, h3] at hok
      · by_cases h4 : goal ≤ 0
        · simp [createCampaign, h1, h2, h3, h4] at hok
        · simp only [createCampaign, if_neg h1, if_neg h2, if_neg h3, if_neg h4,
            Except.ok.injEq] at hok
          subst hok
          rfl

/-- Witness for the amended C3: a create followed by an accepted
donation of 4 reaches a stored record satisfying
`0 ≤ totalDonations ≤ goal`. -/
theorem totalDonations_invariant_amended_witness :
    0 ≤ (Campaign.mk "abcde" "alice" "Well" "Water well" 10 4 86400000000000
        [Donor.mk "bob" 4]).totalDonations
      ∧ (Campaign.mk "abcde" "alice" "Well" "Water well" 10 4 86400000000000
          [Donor.mk "bob" 4]).totalDonations ≤
        (Campaign.mk "abcde" "alice" "Well" "Water well" 10 4 86400000000000
          [Donor.mk "bob" 4]).goal :=
  totalDonations_invariant_amended.2.2
    [Op.create 0 "abcde" "alice" "Well" "Water well" 10 1,
     Op.donate 5 "abcde" "bob" 4]
    (by decide) "abcde"
    (Campaign.mk "abcde" "alice" "Well" "Water well" 10 4 86400000000000
      [Donor.mk "bob" 4]) (by decide)

/-- One donate call against a fixed campaign: the clock value at the
call, the donor, and the amount. -/
structure DonationCall where
  time : Int
  donorId : String
  amount : Int
deriving Repr, DecidableEq

/-- The storage after issuing the listed donate calls in order. -/
def runDonations (storage : Storage) (campaignId : String) :
    List DonationCall → Storage
  | [] => storage
  | d :: ds =>
      runDonations (donateCampaign storage d.time campaignId d.donorId d.amount).2
        campaignId ds

/-- The sum of the amounts of the listed calls. -/
def donationTotal (ds : List DonationCall) : Int :=
  (ds.map DonationCall.amount).sum

/-- The donor records the listed calls append, in arrival order. -/
def donorEntries (ds : List DonationCall) : List Donor :=
  ds.map (fun d => { id := d.donorId, amount := d.amount })

lemma donationTotal_nonneg (ds : List DonationCall)
    (h : ∀ d ∈ ds, 0 ≤ d.amount) : 0 ≤ donationTotal ds := by
  apply List.sum_nonneg
  intro x hx
  obtain ⟨e, he, rfl⟩ := List.mem_map.mp hx
  exact h e he

lemma donationTotal_cons (d : DonationCall) (ds : List DonationCall) :
    donationTotal (d :: ds) = d.amount + donationTotal ds := by
  simp [donationTotal]

/-- On a stored campaign, a list of donate calls that all arrive by the
deadline, all carry non-negative amounts, and whose total fits in the
remaining goal headroom is accepted in full: the final stored record is
the original with every donor entry appended in order and the total
increased by the sum. -/
lemma runDonations_accepted (campaignId : String) (ds : List DonationCall) :
    ∀ (storage : Storage) (c : Campaign),
      storage campaignId = some c →
      (∀ d ∈ ds, d.time ≤ c.deadline ∧ 0 ≤ d.amount) →
      c.totalDonations + donationTotal ds ≤ c.goal →
      runDonations storage campaignId ds campaignId =
        some { c with
          totalDonations := c.totalDonations + donationTotal ds,
          donors := c.donors ++ donorEntries ds } := by
  induction ds with
  | nil =>
    intro storage c hget hall hsum
    simpa [runDonations, donationTotal, donorEntries] using hget
  | cons d ds ih =>
    intro storage c hget hall hsum
    have hd := hall d (List.mem_cons_self d ds)
    have hrest : ∀ e ∈ ds, e.time ≤ c.deadline ∧ 0 ≤ e.amount :=
      fun e he => hall e (List.mem_cons_of_mem d he)
    have hnn : 0 ≤ donationTotal ds :=
      donationTotal_nonneg ds (fun e he => (hrest e he).2)
    rw [donationTotal_cons] at hsum
    have hstep : (donateCampaign storage d.time campaignId d.donorId d.amount).2 =
        storage.insert campaignId
          { c with
            donors := c.donors ++ [{ id := d.donorId, amount := d.amount }],
            totalDonations := c.totalDonations + d.amount } := by
      simp only [donateCampaign, hget]
      rw [if_neg (by omega : ¬ d.time > c.deadline),
        if_pos (by omega : c.goal ≥ c.totalDonations + d.amount)]
    have hget2 : (donateCampaign storage d.time campaignId d.donorId d.amount).2
        campaignId =
        some { c with
          donors := c.donors ++ [{ id := d.donorId, amount := d.amount }],
          totalDonations := c.totalDonations + d.amount } := by
      rw [hstep]; simp [Storage.insert]
    have := ih (donateCampaign storage d.time campaignId d.donorId d.amount).2
      { c with
        donors := c.donors ++ [{ id := d.donorId, amount := d.amount }],
        totalDonations := c.totalDonations + d.amount }
      hget2 (fun e he => by simpa using hrest e he) (by simp; omega)
    rw [show runDonations storage campaignId (d :: ds) =
        runDonations (donateCampaign storage d.time campaignId d.donorId d.amount).2
          campaignId ds from rfl]
    rw [this]
    simp only [Option.some.injEq, Campaign.mk.injEq, donationTotal_cons, donorEntries,
      List.map_cons, List.append_assoc, List.singleton_append, eq_self_iff_true,
      true_and, and_true]
    omega

/-- C5: starting from a freshly created stored campaign (zero total,
no donors), a sequence of donations that all arrive by the deadline,
all carry non-negative amounts, and whose sum fits within the goal is
accepted in full: afterwards the stored record has
`totalDonations = sum` and `donors` holds exactly those entries in
arrival order. -/
theorem accepted_donation_sequence (storage : Storage) (campaignId : String)
    (c : Campaign) (ds : List DonationCall)
    (hget : storage campaignId = some c)
    (htotal : c.totalDonations = 0) (hdonors : c.donors = [])
    (hall : ∀ d ∈ ds, d.time ≤ c.deadline ∧ 0 ≤ d.amount)
    (hsum : donationTotal ds ≤ c.goal) :
    runDonations storage campaignId ds campaignId =
      some { c with totalDonations := donationTotal ds, donors := donorEntries ds } := by
  have h := runDonations_accepted campaignId ds storage c hget hall (by omega)
  rw [htotal, hdonors] at h
  simpa using h

/-- Witness for C5: donations of 3 and 7 against goal 10 are both
accepted and recorded in order. -/
theorem accepted_donation_sequence_witness :
    runDonations stFix "abcde"
        [DonationCall.mk 1 "bob" 3, DonationCall.mk 2 "carol" 7] "abcde" =
      some { cFix with
        totalDonations := donationTotal
          [DonationCall.mk 1 "bob" 3, DonationCall.mk 2 "carol" 7],
        donors := donorEntries
          [DonationCall.mk 1 "bob" 3, DonationCall.mk 2 "carol" 7] } :=
  accepted_donation_sequence stFix "abcde" cFix
    [DonationCall.mk 1 "bob" 3, DonationCall.mk 2 "carol" 7]
    (by decide) (by decide) (by decide) (by decide) (by decide)

end FundIt
